import Mathlib

/-!
Shallow embedding of `src/worker.py` (kestein/ipo-emails), the worker that
aggregates upcoming IPO listings, filters them by expected listing date, and
sends a digest email at most once per eligible window.

Conventions of the embedding:
* Python `datetime` values are modelled at minute granularity.  An absolute
  instant is a `Nat`: minutes since 0001-01-01 00:00 UTC in the proleptic
  Gregorian calendar (the calendar `datetime` uses).
* `Date.toOrdinal` matches Python's `date.toordinal` (0001-01-01 has
  ordinal 1) and `isoweekday` matches `date.isoweekday` (Monday = 1 …
  Sunday = 7).
* `pytz` conversion UTC → US/Pacific is modelled with the post-2007 US DST
  rule: UTC-7 from the second Sunday of March 10:00 UTC to the first Sunday
  of November 09:00 UTC, else UTC-8.
* Fallible Python code is modelled with `Except PyErr`; a raised exception
  aborts the surrounding computation, as in the source.
-/

namespace Worker

/-- Exceptions raised by the modelled Python code. -/
inductive PyErr where
  | attributeError
  | valueError
  | typeError
  | httpStatusError
deriving DecidableEq, Repr

/-- A calendar date in the proleptic Gregorian calendar, as used by
Python `datetime.date`. -/
structure Date where
  year : Nat
  month : Nat
  day : Nat
deriving DecidableEq, Repr

/-- Gregorian leap-year rule, as in Python `calendar.isleap`. -/
def isLeap (y : Nat) : Bool :=
  y % 4 == 0 && (y % 100 != 0 || y % 400 == 0)

/-- Number of days in a month, as validated by `datetime.strptime`. -/
def daysInMonth (y m : Nat) : Nat :=
  if m = 2 then (if isLeap y then 29 else 28)
  else if m = 4 ∨ m = 6 ∨ m = 9 ∨ m = 11 then 30
  else 31

/-- Days in all years strictly before year `y` (for `y ≥ 1`). -/
def daysBeforeYear (y : Nat) : Nat :=
  (y - 1) * 365 + (y - 1) / 4 - (y - 1) / 100 + (y - 1) / 400

/-- Days in all months of year `y` strictly before month `m`. -/
def daysBeforeMonth (y m : Nat) : Nat :=
  (List.range (m - 1)).foldl (fun acc i => acc + daysInMonth y (i + 1)) 0

/-- Python `date.toordinal`: 0001-01-01 is day 1. -/
def Date.toOrdinal (d : Date) : Nat :=
  daysBeforeYear d.year + daysBeforeMonth d.year d.month + d.day

/-- Python `date.isoweekday`: Monday = 1 … Sunday = 7
(0001-01-01 is a Monday in the proleptic Gregorian calendar). -/
def isoweekday (d : Date) : Nat :=
  (d.toOrdinal - 1) % 7 + 1

/-- Inverse of `Date.toOrdinal` (civil-from-days, era arithmetic). -/
def fromOrdinal (o : Nat) : Date :=
  let z := o + 305
  let era := z / 146097
  let doe := z % 146097
  let yoe := (doe - doe / 1460 + doe / 36524 - doe / 146096) / 365
  let y := yoe + era * 400
  let doy := doe - (365 * yoe + yoe / 4 - yoe / 100)
  let mp := (5 * doy + 2) / 153
  let d := doy - (153 * mp + 2) / 5 + 1
  let m := if mp < 10 then mp + 3 else mp - 9
  ⟨if m ≤ 2 then y + 1 else y, m, d⟩

/-- A civil datetime truncated to the fields the worker inspects
(`.day` via `date`, `.hour`, `.isoweekday()`). -/
structure DateTime where
  date : Date
  hour : Nat
deriving DecidableEq, Repr

/-- The civil datetime of an absolute instant `t` (minutes since
0001-01-01 00:00) read in the same clock as `t`. -/
def dtOfMin (t : Nat) : DateTime :=
  ⟨fromOrdinal (t / 1440 + 1), t % 1440 / 60⟩

/-- Convenience: the absolute UTC instant of a date at hour `h`. -/
def utcMinutes (d : Date) (h : Nat) : Nat :=
  (d.toOrdinal - 1) * 1440 + h * 60

/-- Day of month (1-based) of the `n`-th Sunday of month `m` in year `y`. -/
def nthSunday (y m n : Nat) : Nat :=
  1 + (7 - isoweekday ⟨y, m, 1⟩) % 7 + (n - 1) * 7

/-- US DST start for year `y`: second Sunday of March, 02:00 PST
= 10:00 UTC, as an absolute UTC instant. -/
def dstStartMin (y : Nat) : Nat :=
  (Date.toOrdinal ⟨y, 3, nthSunday y 3 2⟩ - 1) * 1440 + 10 * 60

/-- US DST end for year `y`: first Sunday of November, 02:00 PDT
= 09:00 UTC, as an absolute UTC instant. -/
def dstEndMin (y : Nat) : Nat :=
  (Date.toOrdinal ⟨y, 11, nthSunday y 11 1⟩ - 1) * 1440 + 9 * 60

/-- Offset (in minutes) of US/Pacific behind UTC at UTC instant `t`:
420 during daylight time, 480 during standard time. -/
def pacOffsetMin (t : Nat) : Nat :=
  let y := (fromOrdinal (t / 1440 + 1)).year
  if dstStartMin y ≤ t ∧ t < dstEndMin y then 420 else 480

/-- `utcnow().astimezone(PACIFC_TIMEZONE)` (worker.py `pacnow`): the
Pacific civil datetime of the UTC instant `t`. -/
def pacDT (t : Nat) : DateTime :=
  dtOfMin (t - pacOffsetMin t)

-- Sanity checks for the calendar core.
theorem toOrdinal_epoch : Date.toOrdinal ⟨1, 1, 1⟩ = 1 := by decide

theorem fromOrdinal_roundtrip_sample :
    fromOrdinal (Date.toOrdinal ⟨2021, 2, 3⟩) = ⟨2021, 2, 3⟩ ∧
    fromOrdinal (Date.toOrdinal ⟨2020, 2, 29⟩) = ⟨2020, 2, 29⟩ ∧
    fromOrdinal (Date.toOrdinal ⟨2021, 12, 31⟩) = ⟨2021, 12, 31⟩ ∧
    fromOrdinal 1 = ⟨1, 1, 1⟩ := by decide

theorem isoweekday_sample :
    isoweekday ⟨2021, 2, 3⟩ = 3 ∧ isoweekday ⟨2021, 2, 6⟩ = 6 ∧
    isoweekday ⟨2021, 2, 7⟩ = 7 := by decide

/-! ### String helpers mirroring the Python primitives the worker uses -/

/-- The apostrophe character, kept out of string literals. -/
def apos : String := String.singleton (Char.ofNat 39)

/-- Split a character list at every occurrence of `sep` (Python
`str.split` on a single-character separator, as `strptime` does for the
literal `/` in the format string). -/
def splitCharAux (sep : Char) : List Char → List Char → List (List Char)
  | [], acc => [acc.reverse]
  | c :: cs, acc =>
    if c = sep then acc.reverse :: splitCharAux sep cs []
    else splitCharAux sep cs (c :: acc)

/-- Split a string on the slash character. -/
def splitSlash (s : String) : List (List Char) :=
  splitCharAux (Char.ofNat 47) s.data []

/-- Read a nonempty all-digit character list as a natural number. -/
def digitsToNat? (cs : List Char) : Option Nat :=
  if cs.isEmpty || cs.any (fun c => !c.isDigit) then none
  else some (cs.foldl (fun a c => a * 10 + (c.toNat - 48)) 0)

/-- Python `int(s)` on a string: optional sign followed by digits,
`ValueError` (here `none`) otherwise. -/
def pyIntOfString (s : String) : Option Int :=
  match s.data with
  | [] => none
  | c :: cs =>
    let signed : Bool × List Char :=
      if c = '-' then (true, cs)
      else if c = '+' then (false, cs)
      else (false, c :: cs)
    match digitsToNat? signed.2 with
    | none => none
    | some v => some (if signed.1 then -(v : Int) else (v : Int))

/-- Python `s.replace(",", "")`: drop every comma. -/
def stripCommas (s : String) : String :=
  String.mk (s.data.filter (fun c => c ≠ ','))

/-- CPython equality between an `int` and a `str`: values of different
types with no numeric coercion are never equal, so this is constantly
`false`.  This is the semantics of the source expression
`int(amount_filed) == amount_filed` when `amount_filed` is a string. -/
def pyEqIntStr (_n : Int) (_s : String) : Bool := false

/-! ### worker.py constants and date parsing -/

/-- worker.py line 21. -/
def SATURDAY : Nat := 6

/-- worker.py line 22. -/
def SUNDAY : Nat := 0

/-- `datetime.strptime(date_str, "%m/%d/%Y")` reduced to its result date:
one or two digits of month and day, up to four digits of year, separated
by slashes, with the ranges `datetime` accepts; `none` models the
`ValueError` branch. -/
def strptime_mdy (s : String) : Option Date :=
  match splitSlash s with
  | [ms, ds, ys] =>
    match digitsToNat? ms, digitsToNat? ds, digitsToNat? ys with
    | some m, some d, some y =>
      if ms.length ≤ 2 ∧ ds.length ≤ 2 ∧ ys.length ≤ 4 ∧
          1 ≤ m ∧ m ≤ 12 ∧ 1 ≤ d ∧ d ≤ daysInMonth y m ∧ 1 ≤ y
      then some ⟨y, m, d⟩ else none
    | _, _, _ => none
  | _ => none

/-- `parse_date` (worker.py lines 29-36).  The source calls
`datetime.strptime` but never returns its result: the success path falls
through the end of the function, so every call returns `None` — matched
here by returning `none` in both branches of the inner match. -/
def parse_date (date_str : String) : Option Date :=
  if date_str.isEmpty then none
  else
    match strptime_mdy date_str with
    | some _ => none
    | none => none

/-! ### The Listing data model and rendering -/

/-- A normalized numeric-or-string field value, covering the three Python
types the worker stores in `amount_filed` / `shares_filed`. -/
inductive FieldVal where
  | int : Int → FieldVal
  | float : Rat → FieldVal
  | str : String → FieldVal
deriving DecidableEq, Repr

/-- A `Listing` as constructed by one of the two source classes; the
constructor records which `__str__` layout applies. -/
inductive Company where
  | nyse (name : String) (symbol : Option String) (amount_filed : FieldVal)
      (shares_filed : FieldVal) (price_range : String)
      (expected_date : Option Date)
  | nasdaq (name : String) (symbol : Option String) (amount_filed : FieldVal)
      (price_range : String) (expected_date : Option Date)
deriving DecidableEq, Repr

/-- The `expected_date` attribute of either listing class. -/
def Company.expected_date : Company → Option Date
  | .nyse _ _ _ _ _ d => d
  | .nasdaq _ _ _ _ d => d

/-- Python truthiness of an optional string (`None` and `""` are falsy). -/
def pyTruthyStr : Option String → Bool
  | none => false
  | some s => !s.isEmpty

/-- `make_company_line` (worker.py lines 25-26). -/
def make_company_line (name : String) (symbol : Option String) : String :=
  if pyTruthyStr symbol then
    "Company: " ++ name ++ " (" ++ symbol.getD "" ++ ")"
  else "Company: " ++ name

/-- `str()` of a stored field value (f-string interpolation). -/
def FieldVal.render : FieldVal → String
  | .int n => toString n
  | .float q => toString q
  | .str s => s

/-- `__str__` of either listing class (worker.py lines 77-84, 121-128). -/
def companyStr : Company → String
  | .nyse name symbol amount shares price _ =>
    String.intercalate "\n"
      [make_company_line name symbol,
       "Offering: " ++ shares.render ++ " / " ++ amount.render,
       "Price: " ++ price]
  | .nasdaq name symbol amount price _ =>
    String.intercalate "\n"
      [make_company_line name symbol,
       "Offering: " ++ amount.render,
       "Price: " ++ price]

/-- `filter_company` (worker.py lines 39-40): Python
`company.expected_date is not None and company.expected_date.isoweekday() == dow`,
where `dow` may be `None` (then the equality is `False`). -/
def filter_company (company : Company) (dow : Option Nat) : Bool :=
  match company.expected_date with
  | none => false
  | some d => some (isoweekday d) == dow

/-- worker.py line 203: `"\n\n".join([str(c) for c in filtered_companies])`. -/
def digestBody (cs : List Company) : String :=
  String.intercalate "\n\n" (cs.map companyStr)

/-! ### Source parsers -/

/-- One record of the NYSE `calendarList` payload, with the fields
`NYSE.__init__` reads.  The two amount fields are JSON numbers (the
inline sample in worker.py lines 42-64 shows numeric values); they are
modelled as rationals covering both JSON integers and decimals. -/
structure NYSEPayload where
  issuer_nm : String
  symbol : Option String
  current_filed_proceeds_with_overallotment_usd_amt : Rat
  current_shares_filed : Rat
  current_file_price_range_usd : String
  expected_dt_report : String
deriving DecidableEq, Repr

/-- The source idiom `int(x) if int(x) == x else x` applied to a number:
`int()` truncates toward zero, and `int(x) == x` holds exactly when `x`
is integral, so an integral value is stored as an `int` and any other
number is kept as the original float. -/
def normalize_num (x : Rat) : FieldVal :=
  if x.den = 1 then .int x.num else .float x

/-- `NYSE.__init__` (worker.py lines 66-75). -/
def nyseInit (payload : NYSEPayload) : Company :=
  .nyse payload.issuer_nm payload.symbol
    (normalize_num payload.current_filed_proceeds_with_overallotment_usd_amt)
    (normalize_num payload.current_shares_filed)
    payload.current_file_price_range_usd
    (parse_date payload.expected_dt_report)

/-- One record of the Nasdaq `rows` payload, with the fields
`Nasdaq.__init__` reads.  The worker's own inline sample (lines 96-107)
documents `proposedTickerSymbol` and `sharesOffered` as nullable. -/
structure NasdaqPayload where
  companyName : String
  proposedTickerSymbol : Option String
  sharesOffered : Option String
  proposedSharePrice : String
  expectedPriceDate : String
deriving DecidableEq, Repr

/-- worker.py lines 113-117, after `sharesOffered.replace(",", "")` has
produced the string `amount_filed`: an empty string stores the sentinel
`"Unspecified"`; otherwise `int(amount_filed)` parses the digits (raising
`ValueError` when it cannot) and the result is stored as an `int` only if
`int(amount_filed) == amount_filed`, an int-to-str comparison
(`pyEqIntStr`, constantly false), else the string itself is stored. -/
def nasdaq_amount (sharesOffered : String) : Except PyErr FieldVal :=
  let amount_filed := stripCommas sharesOffered
  if amount_filed.data.isEmpty then .ok (.str "Unspecified")
  else
    match pyIntOfString amount_filed with
    | none => .error .valueError
    | some n =>
      .ok (if pyEqIntStr n amount_filed then .int n else .str amount_filed)

/-- `Nasdaq.__init__` (worker.py lines 108-119).  A `null`
`sharesOffered` makes `payload["sharesOffered"].replace(",", "")` raise
`AttributeError` (`None` has no `replace`), modelled as an error result. -/
def nasdaqInit (payload : NasdaqPayload) : Except PyErr Company :=
  match payload.sharesOffered with
  | none => .error .attributeError
  | some so =>
    match nasdaq_amount so with
    | .error e => .error e
    | .ok amount =>
      .ok (.nasdaq payload.companyName payload.proposedTickerSymbol amount
        payload.proposedSharePrice (parse_date payload.expectedPriceDate))

/-- worker.py line 162: `[Nasdaq(c) for c in rows]` — the comprehension
constructs records left to right and an exception from any one record
aborts the whole batch. -/
def parseNasdaqBatch (rows : List NasdaqPayload) : Except PyErr (List Company) :=
  rows.mapM nasdaqInit

/-- Whether an `Except` computation succeeded. -/
def exceptOk {ε α : Type} : Except ε α → Bool
  | .ok _ => true
  | .error _ => false

/-! ### Send-eligibility gate -/

/-- The redis handle: `none` when no `REDIS_URL` is set (or
`--ignore-redis`), otherwise the stored value under `email_last_sent`
(`none` when the key was never written).  Timestamps are UTC instants in
minutes, as written by `datetime.utcnow().isoformat()`. -/
def get_last_sent (redis : Option (Option Nat)) : Option Nat :=
  match redis with
  | none => none
  | some v => v

/-- `set_last_sent` (worker.py lines 171-174): a no-op without redis,
else the key is overwritten with the current UTC time. -/
def set_last_sent (redis : Option (Option Nat)) (now : Nat) :
    Option (Option Nat) :=
  match redis with
  | none => none
  | some _ => some (some now)

/-- `is_sendable_time` (worker.py lines 139-150).  `last_send_time` is
the stored UTC instant re-tagged UTC (`.replace(tzinfo=pytz.UTC)`), and
`current_time_pac` is `pacnow()`; the day comparison therefore reads the
UTC day-of-month of the stored time against the Pacific day-of-month of
now, and the aware-datetime subtraction is the true elapsed time. -/
def is_sendable_time (redis : Option (Option Nat)) (now : Nat) : Bool :=
  match get_last_sent redis with
  | none => true
  | some last_sent =>
    if isoweekday (pacDT now).date = SATURDAY then false
    else
      (decide (8 ≤ (pacDT now).hour) && decide ((pacDT now).hour ≤ 10) &&
        decide ((dtOfMin last_sent).date.day ≠ (pacDT now).date.day))
      || decide (last_sent + 1440 ≤ now)

/-! ### Dispatch orchestrator -/

/-- Observable outcome of one invocation of `main` (worker.py lines
177-207), with the transport response status abstracted as an input. -/
structure MainResult where
  earlyReturn : Bool
  aborted : Bool
  subject : String
  text : String
  setLastSentInvoked : Bool
  store : Option (Option Nat)
deriving DecidableEq, Repr

/-- `main` (worker.py lines 177-207): gate check with early return; day
classifier `dow = pacnow().isoweekday()` and subject selection against
`SUNDAY`; merge NYSE then (when enabled) Nasdaq listings; apply
`filter_company` with that `dow` unless `dow == SUNDAY`; render the body;
`resp.raise_for_status()` raises on a non-2xx status, which propagates
out of `main` before `set_last_sent` runs. -/
def mainRun (redis : Option (Option Nat)) (now : Nat)
    (nyseListings : List Company) (nasdaqEnabled : Bool)
    (nasdaqListings : List Company) (sendStatus : Nat) : MainResult :=
  if is_sendable_time redis now = false then
    { earlyReturn := true, aborted := false, subject := "", text := "",
      setLastSentInvoked := false, store := redis }
  else
    let dow := isoweekday (pacDT now).date
    let daystr := if dow = SUNDAY then "This week" else "Today"
    let subject := daystr ++ apos ++ "s IPOs"
    let merged := nyseListings ++ (if nasdaqEnabled then nasdaqListings else [])
    let filtered :=
      if dow ≠ SUNDAY then merged.filter (fun c => filter_company c (some dow))
      else merged
    let body := digestBody filtered
    if 200 ≤ sendStatus ∧ sendStatus ≤ 299 then
      { earlyReturn := false, aborted := false, subject := subject,
        text := body, setLastSentInvoked := true,
        store := set_last_sent redis now }
    else
      { earlyReturn := false, aborted := true, subject := subject,
        text := body, setLastSentInvoked := false, store := redis }

/-! ### Sample payloads (the inline samples documented in worker.py) -/

/-- The NYSE sample record from worker.py lines 42-64. -/
def sampleNYSE : NYSEPayload :=
  { issuer_nm := "Sana Biotechnology, Inc.", symbol := some "SANA",
    current_filed_proceeds_with_overallotment_usd_amt := 370875000,
    current_shares_filed := 15000000,
    current_file_price_range_usd := "20.00 - 23.00",
    expected_dt_report := "02/03/2021" }

/-- The Nasdaq sample record from worker.py lines 96-107. -/
def sampleNasdaq : NasdaqPayload :=
  { companyName := "ON24 INC", proposedTickerSymbol := some "ONTF",
    sharesOffered := some "8,600,977", proposedSharePrice := "45.00-50.00",
    expectedPriceDate := "02/03/2021" }

/-- The Nasdaq sample with its nullable ticker set to null. -/
def sampleNasdaqNullTicker : NasdaqPayload :=
  { sampleNasdaq with proposedTickerSymbol := none }

/-- The Nasdaq sample with its nullable share count set to null. -/
def sampleNasdaqNullShares : NasdaqPayload :=
  { sampleNasdaq with companyName := "ACME CORP", sharesOffered := none }

/-- A listing whose date field the source left empty. -/
def sampleNoDateCompany : Company :=
  .nyse "Sana Biotechnology, Inc." (some "SANA") (.int 370875000)
    (.int 15000000) "20.00 - 23.00" none

/-! ### Claim theorems -/

/-- C1: `parse_date` never returns the parsed date.  The `strptime` call
succeeds on the well-formed string `02/03/2021` (first conjunct) but
`parse_date` still returns `None` because the source discards the result
and falls off the end of the function (second conjunct); consequently a
listing constructed from the documented NYSE sample record has an absent
`expected_date` even though the source supplied a parseable date string
(third conjunct), contradicting the claim that a well-formed `MM/DD/YYYY`
field yields a present parsed date. -/
theorem parse_date_discards_result :
    strptime_mdy "02/03/2021" = some ⟨2021, 2, 3⟩ ∧
    parse_date "02/03/2021" = none ∧
    (nyseInit sampleNYSE).expected_date = none :=
  ⟨by decide, rfl, rfl⟩

/-- C2: the run is never in weekly mode.  At a `now` whose Pacific local
weekday is Sunday (2021-02-07 18:00 UTC = Sunday 10:00 PST),
`pacnow().isoweekday()` is `7` while the constant `SUNDAY` is `0`, so the
subject is "Today's IPOs" and the daily weekday filter is applied (a
listing with absent `expected_date` is filtered out, leaving an empty
body) — contradicting the claim that Sundays select weekly mode with
subject "This week's IPOs" and no filtering. -/
theorem sundayStillDailyMode_bug :
    isoweekday (pacDT (utcMinutes ⟨2021, 2, 7⟩ 18)).date = 7 ∧
    SUNDAY = 0 ∧
    (mainRun none (utcMinutes ⟨2021, 2, 7⟩ 18) [sampleNoDateCompany] false []
        200).subject = "Today" ++ apos ++ "s IPOs" ∧
    (mainRun none (utcMinutes ⟨2021, 2, 7⟩ 18) [sampleNoDateCompany] false []
        200).text = "" := by
  refine ⟨by decide, rfl, by decide, by decide⟩

/-- C3 counterexample: on a Saturday (2021-02-06 18:00 UTC = Saturday
10:00 PST) with `last_sent` absent — whether redis itself is absent or the
key is unset — `is_sendable_time` returns `true`, because the
absent-`last_sent` check precedes the weekday check; this refutes the
claim that Saturday yields `false` regardless of `last_sent`. -/
theorem saturdayAbsentLastSentStillSendable :
    isoweekday (pacDT (utcMinutes ⟨2021, 2, 6⟩ 18)).date = SATURDAY ∧
    is_sendable_time (some none) (utcMinutes ⟨2021, 2, 6⟩ 18) = true ∧
    is_sendable_time none (utcMinutes ⟨2021, 2, 6⟩ 18) = true := by
  decide

/-- C3 (amended): for every `now` whose Pacific weekday is Saturday and
every present `last_sent`, `is_sendable_time` returns `false`. -/
theorem saturdayNotSendableWhenLastSentPresent (now last_sent : Nat)
    (h : isoweekday (pacDT now).date = SATURDAY) :
    is_sendable_time (some (some last_sent)) now = false := by
  simp [is_sendable_time, get_last_sent, h]

/-- C3 witness: the amended theorem applied at the concrete Saturday
instant 2021-02-06 18:00 UTC with `last_sent = 0`. -/
theorem saturdayNotSendableWhenLastSentPresent_w :
    isoweekday (pacDT (utcMinutes ⟨2021, 2, 6⟩ 18)).date = SATURDAY ∧
    is_sendable_time (some (some 0)) (utcMinutes ⟨2021, 2, 6⟩ 18) = false :=
  ⟨by decide,
   saturdayNotSendableWhenLastSentPresent (utcMinutes ⟨2021, 2, 6⟩ 18) 0
     (by decide)⟩

/-- C4 counterexample: `last_sent` = 2021-02-03 01:00 UTC (Pacific
calendar day 2021-02-02) and `now` = 2021-02-03 17:00 UTC (Pacific
2021-02-03 09:00, a Wednesday).  The Pacific calendar days of `last_sent`
and `now` differ, the local hour 9 lies in [8, 10], and fewer than 24
hours have elapsed, so the claim asserts eligibility via its clause (a);
but the code compares the *UTC* day-of-month of `last_sent` (3) with the
Pacific day-of-month of `now` (3), finds them equal, and returns `false`. -/
theorem morningWindowUsesUtcDay_cex :
    isoweekday (pacDT (utcMinutes ⟨2021, 2, 3⟩ 17)).date ≠ SATURDAY ∧
    8 ≤ (pacDT (utcMinutes ⟨2021, 2, 3⟩ 17)).hour ∧
    (pacDT (utcMinutes ⟨2021, 2, 3⟩ 17)).hour ≤ 10 ∧
    (pacDT (utcMinutes ⟨2021, 2, 3⟩ 1)).date ≠
      (pacDT (utcMinutes ⟨2021, 2, 3⟩ 17)).date ∧
    ¬ (utcMinutes ⟨2021, 2, 3⟩ 1 + 1440 ≤ utcMinutes ⟨2021, 2, 3⟩ 17) ∧
    is_sendable_time (some (some (utcMinutes ⟨2021, 2, 3⟩ 1)))
      (utcMinutes ⟨2021, 2, 3⟩ 17) = false := by
  decide

/-- C4 (amended): for every `now` not on a Pacific Saturday and every
present `last_sent`, `is_sendable_time` returns `true` if and only if
either (a) the Pacific hour of `now` is within [8, 10] and the *UTC*
day-of-month of `last_sent` differs from the Pacific day-of-month of
`now`, or (b) at least 24 hours of wall-clock time have elapsed (so
`last_sent` exactly 24 hours before `now` yields `true`). -/
theorem is_sendable_time_characterization (now last_sent : Nat)
    (h : isoweekday (pacDT now).date ≠ SATURDAY) :
    is_sendable_time (some (some last_sent)) now = true ↔
      ((8 ≤ (pacDT now).hour ∧ (pacDT now).hour ≤ 10 ∧
        (dtOfMin last_sent).date.day ≠ (pacDT now).date.day) ∨
        last_sent + 1440 ≤ now) := by
  simp [is_sendable_time, get_last_sent, h, and_assoc]

/-- C4 witness: the amended theorem applied at `now` = 2021-02-03 17:00
UTC (a Wednesday in Pacific time) and `last_sent` exactly 24 hours
earlier, eligible through clause (b). -/
theorem is_sendable_time_characterization_w :
    isoweekday (pacDT (utcMinutes ⟨2021, 2, 3⟩ 17)).date ≠ SATURDAY ∧
    is_sendable_time (some (some (utcMinutes ⟨2021, 2, 2⟩ 17)))
      (utcMinutes ⟨2021, 2, 3⟩ 17) = true :=
  ⟨by decide,
   (is_sendable_time_characterization (utcMinutes ⟨2021, 2, 3⟩ 17)
       (utcMinutes ⟨2021, 2, 2⟩ 17) (by decide)).mpr (Or.inr (by decide))⟩

/-- C5 counterexample: rendering an empty retained set yields the empty
string — there is no "no IPOs scheduled" placeholder anywhere in the
code, refuting the claim that the body is a placeholder and never empty. -/
theorem emptyDigestBodyIsEmptyString_cex : digestBody [] = "" := rfl

/-- C5 (amended): for every sequence of merged listings, if the set
retained after filtering is empty then the rendered digest body is the
empty string (the code has no placeholder). -/
theorem emptyRetainedSetYieldsEmptyBody (cs : List Company) (h : cs = []) :
    digestBody cs = "" := by
  subst h; rfl

/-- C5 witness: the amended theorem applied to the empty list. -/
theorem emptyRetainedSetYieldsEmptyBody_w :
    ([] : List Company) = [] ∧ digestBody ([] : List Company) = "" :=
  ⟨rfl, emptyRetainedSetYieldsEmptyBody [] rfl⟩

/-- C6: when the gate allows the run and the mail transport responds with
a non-2xx status at the SEND step (`raise_for_status` raises), the run
aborts, `set_last_sent` is never invoked, and the stored state is
unchanged. -/
theorem sendFailureDoesNotRecordState
    (redis : Option (Option Nat)) (now : Nat) (ny : List Company)
    (en : Bool) (nq : List Company) (status : Nat)
    (hgate : is_sendable_time redis now = true)
    (hstatus : ¬ (200 ≤ status ∧ status ≤ 299)) :
    (mainRun redis now ny en nq status).aborted = true ∧
    (mainRun redis now ny en nq status).setLastSentInvoked = false ∧
    (mainRun redis now ny en nq status).store = redis := by
  simp [mainRun, hgate, hstatus]

/-- C6 witness: the theorem applied at a concrete run (no redis, one
weekday instant, transport status 500). -/
theorem sendFailureDoesNotRecordState_w :
    is_sendable_time none (utcMinutes ⟨2021, 2, 3⟩ 17) = true ∧
    (mainRun none (utcMinutes ⟨2021, 2, 3⟩ 17) [] false []
        500).setLastSentInvoked = false ∧
    (mainRun none (utcMinutes ⟨2021, 2, 3⟩ 17) [] false [] 500).aborted
      = true :=
  ⟨rfl,
   (sendFailureDoesNotRecordState none (utcMinutes ⟨2021, 2, 3⟩ 17) [] false
       [] 500 rfl (by decide)).2.1,
   (sendFailureDoesNotRecordState none (utcMinutes ⟨2021, 2, 3⟩ 17) [] false
       [] 500 rfl (by decide)).1⟩

/-- C7: in daily mode with weekday `w`, the filter retains exactly the
listings whose `expected_date` is present with ISO weekday `w`; in
particular every listing with absent `expected_date` is dropped. -/
theorem dailyFilterRetainsExactlyMatchingWeekday
    (cs : List Company) (w : Nat) (c : Company) :
    c ∈ cs.filter (fun x => filter_company x (some w)) ↔
      c ∈ cs ∧ ∃ d, c.expected_date = some d ∧ isoweekday d = w := by
  rw [List.mem_filter]
  cases hc : c.expected_date with
  | none => simp [filter_company, hc]
  | some d => simp [filter_company, hc]

/-- C8: when `last_sent` is absent (no redis, or the key unset),
`is_sendable_time` returns `true` regardless of `now`. -/
theorem absentLastSentAlwaysSendable (redis : Option (Option Nat)) (now : Nat)
    (h : get_last_sent redis = none) :
    is_sendable_time redis now = true := by
  unfold is_sendable_time
  rw [h]

/-- C8 witness: the theorem applied with no redis at the Saturday instant
2021-02-06 18:00 UTC. -/
theorem absentLastSentAlwaysSendable_w :
    get_last_sent none = none ∧
    is_sendable_time none (utcMinutes ⟨2021, 2, 6⟩ 18) = true :=
  ⟨rfl, absentLastSentAlwaysSendable none (utcMinutes ⟨2021, 2, 6⟩ 18) rfl⟩

/-- C9: a Nasdaq record with a null `sharesOffered` — a field the
worker's own inline sample documents as nullable — makes
`Nasdaq.__init__` raise (`None.replace` is an `AttributeError`), and the
batch comprehension then fails as a whole, even though a record with only
a null ticker is tolerated; this contradicts the claim that one such
record never causes the entire batch to fail. -/
theorem nullSharesOfferedFailsBatch_bug :
    nasdaqInit sampleNasdaqNullShares = Except.error PyErr.attributeError ∧
    exceptOk (nasdaqInit sampleNasdaqNullTicker) = true ∧
    parseNasdaqBatch [sampleNasdaq, sampleNasdaqNullShares]
      = Except.error PyErr.attributeError :=
  ⟨rfl, rfl, rfl⟩

/-- C10: the Nasdaq offering value is never stored as an integer.  For
the documented sample value `8,600,977` the comma-stripped string parses
as the integer 8600977, but the source guard `int(x) == x` compares an
int with a str — constantly false in Python — so the string "8600977" is
stored rather than the integer; the empty value stores "Unspecified", and
the NYSE numeric path does normalize whole numbers to integers and keeps
non-integral values as decimals. -/
theorem nasdaqIntegralAmountKeptAsString_bug :
    nasdaq_amount "8,600,977" = Except.ok (FieldVal.str "8600977") ∧
    pyIntOfString "8600977" = some 8600977 ∧
    nasdaq_amount "" = Except.ok (FieldVal.str "Unspecified") ∧
    normalize_num 370875000 = FieldVal.int 370875000 ∧
    normalize_num (mkRat 409 2) = FieldVal.float (mkRat 409 2) := by
  refine ⟨rfl, rfl, rfl, by decide, by decide⟩

end Worker
